import Mathlib

/-!
Verification of the extension-to-loader resolution mechanism of the
`loader` repository (src/loaders/loaders.py), as a shallow embedding.

The embedding mirrors the Python module:
* the exception taxonomy (`LoaderError` subclasses) becomes `LoaderErr`;
  `LoaderError.__init__` prints its message on construction (line 28 of
  the source), so resolution is modelled both as a plain outcome
  (`get_loader`) and together with the list of strings printed to stdout
  (`get_loader_traced`);
* `LoaderFactory.target_file_exts`'s setter accepts either a bare string
  or a list (`ExtsArg`), rejects falsy arguments and wraps a bare string
  into a one-element list;
* `LoaderFactory.get_loader` checks membership in the stored list, then
  scans `Loader.__subclasses__()` — the two concrete subclasses in
  definition order, `YamlLoader` then `IniLoader` — for the first one
  whose `check_extension_supported` is truthy, instantiates it, and
  otherwise raises `NoLoaderFoundError`;
* `Loader.check_extension_supported` returns Python `True` when the
  extension is in `_SUPPORTED_EXTS` and falls off the end of the function
  (Python `None`) otherwise, hence the result type `Option Bool`;
* `IniLoader` holds a `configparser.ConfigParser` instance created in
  `__init__` and reused by every `load` call on the same instance; the
  parser is modelled by `ConfigParser` below, for the INI fragment this
  module exercises.
-/

namespace Loaders

/-- The exception taxonomy of loaders.py (lines 20-55): `NoLoaderFoundError`
carries the offending file extension; `NoTargetFileExtensionsError` carries
nothing. -/
inductive LoaderErr where
  | noLoaderFound (file_extension : String)
  | noTargetFileExtensions
deriving DecidableEq, Repr

/-- The `msg` attribute set by each exception constructor (lines 45 and 54). -/
def LoaderErr.msg : LoaderErr → String
  | .noLoaderFound e => "No loader found for file extension `" ++ e ++ "` in LoaderFactory."
  | .noTargetFileExtensions =>
      "The LoaderFactory\x27s `target_file_extensions` attribute must not be empty."

/-- The value passed to the `target_file_exts` setter: a bare extension
string or a list of extension strings (lines 77-91 accept either). -/
inductive ExtsArg where
  | str (s : String)
  | list (l : List String)
deriving DecidableEq, Repr

/-- Python truthiness of the setter argument: `not target_file_exts` is
true exactly for the empty string and the empty list. -/
def ExtsArg.isFalsy : ExtsArg → Bool
  | .str s => s.isEmpty
  | .list l => l.isEmpty

/-- The value the setter stores when it does not raise: a bare string is
wrapped into a one-element list (lines 89-90), a list is stored as is. -/
def ExtsArg.normalize : ExtsArg → List String
  | .str s => [s]
  | .list l => l

/-- The `target_file_exts` setter (lines 77-91): raise
`NoTargetFileExtensionsError` on a falsy argument, wrap a bare string into
a list, store the result in `_target_file_exts`. -/
def setTargetFileExts (arg : ExtsArg) : Except LoaderErr (List String) :=
  if arg.isFalsy then .error .noTargetFileExtensions
  else
    match arg with
    | .str s => .ok [s]
    | .list l => .ok l

/-- `LoaderFactory.__init__` (lines 59-68): `self.target_file_exts =
target_file_exts` goes through the property setter, so construction is
exactly the setter applied with no previous stored value. -/
def constructFactory (arg : ExtsArg) : Except LoaderErr (List String) :=
  setTargetFileExts arg

/-- Assigning `factory.target_file_exts = arg` on an already-constructed
factory whose stored list is `stored`: the setter raises before the
assignment to `self._target_file_exts`, so on error the old list is kept.
Returns the stored list afterwards and the raised exception, if any. -/
def reconfigure (stored : List String) (arg : ExtsArg) :
    List String × Option LoaderErr :=
  match setTargetFileExts arg with
  | .ok l => (l, none)
  | .error e => (stored, some e)

/-- The concrete `Loader` subclasses. `Loader.__subclasses__()` lists the
direct subclasses in class-creation order: `YamlLoader` (line 141) before
`IniLoader` (line 158). -/
inductive LoaderKind where
  | yamlLoader
  | iniLoader
deriving DecidableEq, Repr

/-- The `_SUPPORTED_EXTS` class attribute of each subclass (lines 145 and 162). -/
def _SUPPORTED_EXTS : LoaderKind → List String
  | .yamlLoader => [".yml", ".yaml"]
  | .iniLoader => [".ini", ".config"]

/-- `Loader.__subclasses__()` in the order `get_loader`'s loop visits it. -/
def subclasses : List LoaderKind := [.yamlLoader, .iniLoader]

/-- `Loader.check_extension_supported` (lines 129-138): `if file_ext in
cls._SUPPORTED_EXTS: return True` — there is no else branch, so the Python
function returns `None` when the membership test fails. -/
def check_extension_supported (cls : LoaderKind) (file_ext : String) : Option Bool :=
  if file_ext ∈ _SUPPORTED_EXTS cls then some true else none

/-- Python truthiness of an `Optional[bool]`: `None` and `False` are falsy,
`True` is truthy.  This is the test `if loader.check_extension_supported(file_ext):`
performs on line 105. -/
def pyTruthy : Option Bool → Bool
  | some b => b
  | none => false

/-- `LoaderFactory.get_loader` (lines 93-108) together with the stdout
trace: returning `None` or a loader instance prints nothing; raising
`NoLoaderFoundError` prints the message, because `LoaderError.__init__`
executes `print(self.msg)` (line 28) when the exception is constructed. -/
def get_loader_traced (target_file_exts : List String) (file_ext : String) :
    Except LoaderErr (Option LoaderKind) × List String :=
  if file_ext ∉ target_file_exts then (.ok none, [])
  else
    match subclasses.find? (fun l => pyTruthy (check_extension_supported l file_ext)) with
    | some l => (.ok (some l), [])
    | none => (.error (.noLoaderFound file_ext), [(LoaderErr.noLoaderFound file_ext).msg])

/-- The outcome of `LoaderFactory.get_loader`: `ok none` models returning
Python `None`, `ok (some k)` models returning a fresh instance of subclass
`k`, `error` models a raised exception. -/
def get_loader (target_file_exts : List String) (file_ext : String) :
    Except LoaderErr (Option LoaderKind) :=
  (get_loader_traced target_file_exts file_ext).1

/-- The resolution outcome is an instantiated Loader subclass whose
`check_extension_supported` on `file_ext` returns Python `True`. -/
def resultSupports (r : Except LoaderErr (Option LoaderKind)) (file_ext : String) : Prop :=
  match r with
  | .ok (some k) => check_extension_supported k file_ext = some true
  | _ => False

/-- Errors raised by `configparser`: `MissingSectionHeaderError` when a
non-blank, non-comment, non-header line appears before any `[section]`
header of the current read call, and the catch-all `ParsingError`. -/
inductive IniError where
  | missingSectionHeader
  | parsingError
deriving DecidableEq, Repr

/-- The state of a `configparser.ConfigParser` object: the sections in
insertion order, each holding its options in insertion order.  Modelled
from Python's `configparser` for the INI fragment loaders.py exercises:
`[section]` headers, `key=value` / `key: value` option lines, blank lines
and `#`/`;` comment lines; option names are lowercased (the default
`optionxform`), keys and values are whitespace-stripped; successive `read`
calls accumulate into the same object. -/
structure ConfigParser where
  sections : List (String × List (String × String))
deriving DecidableEq, Repr

/-- Split a line at its first `=` or `:` delimiter, the way `configparser`'s
option regular expression does for the simple lines used here. -/
def splitKV : List Char → Option (List Char × List Char)
  | [] => none
  | c :: rest =>
    if c = '=' ∨ c = ':' then some ([], rest)
    else (splitKV rest).map (fun p => (c :: p.1, p.2))

/-- Split a character list into its lines at each newline character. -/
def splitOnNewline : List Char → List (List Char)
  | [] => [[]]
  | c :: rest =>
    if c = '\n' then [] :: splitOnNewline rest
    else
      match splitOnNewline rest with
      | [] => [[c]]
      | l :: ls => (c :: l) :: ls

/-- Strip leading and trailing whitespace from a character list. -/
def trimChars (l : List Char) : List Char :=
  ((l.dropWhile Char.isWhitespace).reverse.dropWhile Char.isWhitespace).reverse

/-- Set option `key` to `value` in an option list: overwrite an existing
entry in place, append a new one at the end (Python dict assignment). -/
def setOpt (opts : List (String × String)) (key value : String) :
    List (String × String) :=
  if opts.any (fun o => o.1 == key) then
    opts.map (fun o => if o.1 == key then (key, value) else o)
  else opts ++ [(key, value)]

/-- Set option `key` to `value` inside section `sect` of the section list. -/
def setOption (secs : List (String × List (String × String)))
    (sect key value : String) : List (String × List (String × String)) :=
  secs.map (fun s => if s.1 == sect then (s.1, setOpt s.2 key value) else s)

/-- Process one line of an INI source, carrying the parser sections and the
current section of this read call (`configparser._read`'s `cursect`, which
starts as `None` on every call even when the parser already holds sections
from an earlier read).  A header either reuses an existing section of the
same name or appends a new one; an option line before any header of this
call raises `MissingSectionHeaderError`; any other non-ignorable line is a
`ParsingError`. -/
def readLine (acc : ConfigParser × Option String) (raw : List Char) :
    Except IniError (ConfigParser × Option String) :=
  match trimChars raw with
  | [] => .ok acc
  | c :: rest =>
    if c = '#' ∨ c = ';' then .ok acc
    else if c = '[' ∧ rest.getLast? = some ']' ∧ 2 ≤ rest.length then
      let name := String.mk rest.dropLast
      let secs :=
        if acc.1.sections.any (fun s => s.1 == name) then acc.1.sections
        else acc.1.sections ++ [(name, [])]
      .ok (⟨secs⟩, some name)
    else
      match acc.2 with
      | none => .error .missingSectionHeader
      | some sect =>
        match splitKV (c :: rest) with
        | some (k, v) =>
          .ok (⟨setOption acc.1.sections sect
                 (String.mk ((trimChars k).map Char.toLower))
                 (String.mk (trimChars v))⟩, some sect)
        | none => .error .parsingError

/-- One `read`/`read_string` call on a `ConfigParser` object: fold
`readLine` over the lines of `content`, starting from the object's current
sections with no current section.  A `MissingSectionHeaderError` can only
be raised before any header of the call, hence before the call has touched
the object, so the erroring call leaves the object's state unchanged. -/
def ConfigParser.readString (cfg : ConfigParser) (content : String) :
    Except IniError ConfigParser := do
  let st ← (splitOnNewline content.data).foldlM readLine (cfg, none)
  pure st.1

/-- `config.get(sect, opt)` for an option known to exist (the load
comprehension only queries options reported by the parser). -/
def ConfigParser.getOpt (cfg : ConfigParser) (sect opt : String) : String :=
  match cfg.sections.find? (fun s => s.1 == sect) with
  | some s =>
    match s.2.find? (fun o => o.1 == opt) with
    | some o => o.2
    | none => ""
  | none => ""

/-- `config.options(sect)`: the option names of a section, in order. -/
def ConfigParser.optionsOf (cfg : ConfigParser) (sect : String) : List String :=
  match cfg.sections.find? (fun s => s.1 == sect) with
  | some s => s.2.map Prod.fst
  | none => []

/-- The dictionary comprehension at lines 183-187 of loaders.py:
`{section: {option: self.config.get(section, option) for option in
self.config.options(section)} for section in self.config.sections()}`. -/
def loadDict (cfg : ConfigParser) : List (String × List (String × String)) :=
  (cfg.sections.map Prod.fst).map (fun sect =>
    (sect, (cfg.optionsOf sect).map (fun opt => (opt, cfg.getOpt sect opt))))

/-- `IniLoader.load` (lines 170-194).  `self` is the `ConfigParser` held in
`self.config` (created fresh by `IniLoader.__init__` and reused across
`load` calls on the same instance); `fs` maps a path to the content of the
file there (the file is assumed to exist and be readable).  The first
`self.config.read(path)` is retried once on `MissingSectionHeaderError`
via `_add_section_head`, which re-reads the file and parses
`'[__headless__]\n'` prepended to its content; any other error, and any
error of the retry, propagates.  On success the result is the parser state
(kept by the instance) and the rebuilt two-level dictionary. -/
def IniLoader.load (self : ConfigParser) (fs : String → String) (path : String) :
    Except IniError (ConfigParser × List (String × List (String × String))) :=
  match self.readString (fs path) with
  | .ok cfg => .ok (cfg, loadDict cfg)
  | .error .missingSectionHeader =>
    match self.readString ("[__headless__]\n" ++ fs path) with
    | .ok cfg => .ok (cfg, loadDict cfg)
    | .error e => .error e
  | .error e => .error e

/-- C1: for every non-empty extension collection E and every x ∈ E such
that some registered Loader variant supports x, a LoaderFactory
constructed with E stores E, and get_loader(x) returns an instance of a
Loader subclass whose check_extension_supported(x) is True. -/
theorem get_loader_returns_supporting_loader (E : List String) (x : String)
    (hx : x ∈ E) (hs : ∃ k ∈ subclasses, x ∈ _SUPPORTED_EXTS k) :
    constructFactory (.list E) = .ok E ∧ resultSupports (get_loader E x) x := by
  constructor
  · have hne : (ExtsArg.list E).isFalsy = false := by
      cases E with
      | nil => cases hx
      | cons a t => rfl
    simp [constructFactory, setTargetFileExts, hne]
  · obtain ⟨k, hk, hke⟩ := hs
    have hfind :
        (subclasses.find? (fun l => pyTruthy (check_extension_supported l x))).isSome := by
      apply List.find?_isSome.mpr
      exact ⟨k, hk, by simp [check_extension_supported, pyTruthy, hke]⟩
    obtain ⟨k', hk'⟩ := Option.isSome_iff_exists.mp hfind
    have hpk' := List.find?_some hk'
    have hsup : check_extension_supported k' x = some true := by
      by_cases h : x ∈ _SUPPORTED_EXTS k'
      · simp [check_extension_supported, h]
      · simp [check_extension_supported, h, pyTruthy] at hpk'
    simp [get_loader, get_loader_traced, resultSupports, hx, hk', hsup]

/-- C1 witness: the factory of the test suite resolves `.yml` to a loader
supporting it. -/
theorem get_loader_returns_supporting_loader_witness :
    constructFactory (.list [".yml", ".yaml", ".ini"]) = .ok [".yml", ".yaml", ".ini"] ∧
    resultSupports (get_loader [".yml", ".yaml", ".ini"] ".yml") ".yml" :=
  get_loader_returns_supporting_loader [".yml", ".yaml", ".ini"] ".yml"
    (by decide) ⟨.yamlLoader, by decide, by decide⟩

/-- C2: for every extension z in the stored target set that no registered
Loader variant supports, get_loader(z) raises NoLoaderFoundError carrying
z, an outcome distinct from the None returned for untargeted extensions. -/
theorem get_loader_raises_no_loader_found (E : List String) (z : String)
    (hz : z ∈ E) (hn : ∀ k ∈ subclasses, z ∉ _SUPPORTED_EXTS k) :
    get_loader E z = .error (.noLoaderFound z) ∧
    (Except.error (LoaderErr.noLoaderFound z) ≠
      (Except.ok none : Except LoaderErr (Option LoaderKind))) := by
  have hfind :
      subclasses.find? (fun l => pyTruthy (check_extension_supported l z)) = none := by
    apply List.find?_eq_none.mpr
    intro k hk
    simp [check_extension_supported, pyTruthy, hn k hk]
  refine ⟨?_, by simp⟩
  simp [get_loader, get_loader_traced, hz, hfind]

/-- C2 witness: a factory targeting only `.noloader` raises on it. -/
theorem get_loader_raises_no_loader_found_witness :
    get_loader [".noloader"] ".noloader" = .error (.noLoaderFound ".noloader") ∧
    (Except.error (LoaderErr.noLoaderFound ".noloader") ≠
      (Except.ok none : Except LoaderErr (Option LoaderKind))) :=
  get_loader_raises_no_loader_found [".noloader"] ".noloader" (by decide) (by decide)

/-- C3: for every extension y outside the stored target set, get_loader(y)
returns None and never raises, whether or not some variant supports y. -/
theorem get_loader_untargeted_returns_none (E : List String) (y : String)
    (hy : y ∉ E) : get_loader E y = .ok none := by
  simp [get_loader, get_loader_traced, hy]

/-- C3 witness: `.invalid` is not targeted by the test suite's factory,
and `.config` is untargeted there even though IniLoader supports it. -/
theorem get_loader_untargeted_returns_none_witness :
    get_loader [".yml", ".yaml", ".ini"] ".invalid" = .ok none ∧
    get_loader [".yml", ".yaml", ".ini"] ".config" = .ok none :=
  ⟨get_loader_untargeted_returns_none [".yml", ".yaml", ".ini"] ".invalid" (by decide),
   get_loader_untargeted_returns_none [".yml", ".yaml", ".ini"] ".config" (by decide)⟩

/-- C4: constructing a LoaderFactory with an empty (falsy) extension
collection, or reconfiguring an existing factory's target set to one,
raises NoTargetFileExtensionsError. -/
theorem empty_exts_raise (stored : List String) (arg : ExtsArg)
    (h : arg.isFalsy = true) :
    constructFactory arg = .error .noTargetFileExtensions ∧
    reconfigure stored arg = (stored, some .noTargetFileExtensions) := by
  have hset : setTargetFileExts arg = .error .noTargetFileExtensions := by
    simp [setTargetFileExts, h]
  exact ⟨hset, by simp [reconfigure, hset]⟩

/-- C4 witness: the empty list is rejected at construction and at
reconfiguration. -/
theorem empty_exts_raise_witness :
    constructFactory (ExtsArg.list []) = .error .noTargetFileExtensions ∧
    reconfigure [".yml"] (ExtsArg.list []) = ([".yml"], some .noTargetFileExtensions) :=
  empty_exts_raise [".yml"] (ExtsArg.list []) rfl

/-- C5: loading an INI file whose content is `key=value` (no section
header) on a fresh IniLoader fails its first parse with
MissingSectionHeaderError, succeeds after `[__headless__]` and a newline
are prepended, and load returns the two-level mapping
`{__headless__: {key: value}}`. -/
theorem ini_headless_repair :
    ConfigParser.readString ⟨[]⟩ "key=value" = .error .missingSectionHeader ∧
    ConfigParser.readString ⟨[]⟩ ("[__headless__]\n" ++ "key=value") =
      .ok ⟨[("__headless__", [("key", "value")])]⟩ ∧
    IniLoader.load ⟨[]⟩ (fun _ => "key=value") "config.ini" =
      .ok (⟨[("__headless__", [("key", "value")])]⟩,
        [("__headless__", [("key", "value")])]) :=
  ⟨rfl, rfl, rfl⟩

/-- C6 counterexample: for an unsupported extension,
check_extension_supported returns Python None, not the boolean False the
claim states. -/
theorem check_extension_unsupported_is_none :
    check_extension_supported .yamlLoader ".txt" = none ∧
    (none : Option Bool) ≠ some false :=
  ⟨rfl, by simp⟩

/-- C6 amended: check_extension_supported returns the boolean True exactly
when the extension is in the variant's fixed supported-extension set, and
Python None (a falsy non-boolean) exactly otherwise. -/
theorem check_extension_supported_amended (cls : LoaderKind) (e : String) :
    (check_extension_supported cls e = some true ↔ e ∈ _SUPPORTED_EXTS cls) ∧
    (check_extension_supported cls e = none ↔ e ∉ _SUPPORTED_EXTS cls) := by
  unfold check_extension_supported
  split <;> simp_all

/-- C7: the ConfigParser held by an IniLoader instance persists across
load calls, so loading `[alpha]`/`x = 1` and then `[beta]`/`y = 2` on the
same instance returns a mapping that still contains the first file's
section, unlike a fresh load of the second file. -/
theorem iniLoader_parser_state_leaks :
    (IniLoader.load ⟨[]⟩
        (fun p => if p = "a.ini" then "[alpha]\nx = 1" else "[beta]\ny = 2")
        "b.ini").map (fun r => r.2) = .ok [("beta", [("y", "2")])] ∧
    ((IniLoader.load ⟨[]⟩
        (fun p => if p = "a.ini" then "[alpha]\nx = 1" else "[beta]\ny = 2")
        "a.ini").bind (fun r =>
      IniLoader.load r.1
        (fun p => if p = "a.ini" then "[alpha]\nx = 1" else "[beta]\ny = 2")
        "b.ini")).map (fun r => r.2) =
      .ok [("alpha", [("x", "1")]), ("beta", [("y", "2")])] ∧
    (Except.ok [("alpha", [("x", "1")]), ("beta", [("y", "2")])] ≠
      (Except.ok [("beta", [("y", "2")])] :
        Except IniError (List (String × List (String × String))))) :=
  ⟨rfl, rfl, by simp⟩

/-- C8 counterexample: on the NoLoaderFoundError path, get_loader has an
observable side effect beyond instantiation — constructing the exception
prints its message to stdout. -/
theorem get_loader_error_prints :
    (get_loader_traced [".noloader"] ".noloader").2 =
      ["No loader found for file extension `.noloader` in LoaderFactory."] ∧
    (get_loader_traced [".noloader"] ".noloader").2 ≠ [] := by
  have h : (get_loader_traced [".noloader"] ".noloader").2 =
      ["No loader found for file extension `.noloader` in LoaderFactory."] := rfl
  exact ⟨h, by rw [h]; simp⟩

/-- C8 amended: the outcome of get_loader is a deterministic function of
the stored set, the variant list and the extension, and nothing is printed
except on the error path, where exactly the NoLoaderFoundError message is
printed by the exception constructor. -/
theorem get_loader_pure_except_error_print (t : List String) (e : String) :
    (get_loader_traced t e).1 = get_loader t e ∧
    (get_loader_traced t e).2 =
      (match (get_loader_traced t e).1 with
       | .error err => [err.msg]
       | _ => []) := by
  refine ⟨rfl, ?_⟩
  unfold get_loader_traced
  split
  · rfl
  · split <;> rfl

/-- C9: reconfiguring the target set applies the same validation as
construction, on success the stored set equals the normalized new value,
and on NoTargetFileExtensionsError the previously stored set is kept. -/
theorem reconfigure_atomic (stored : List String) (arg : ExtsArg) :
    constructFactory arg = setTargetFileExts arg ∧
    (arg.isFalsy = false →
      setTargetFileExts arg = .ok arg.normalize ∧
      reconfigure stored arg = (arg.normalize, none)) ∧
    (arg.isFalsy = true →
      setTargetFileExts arg = .error .noTargetFileExtensions ∧
      reconfigure stored arg = (stored, some .noTargetFileExtensions)) := by
  refine ⟨rfl, ?_, ?_⟩
  · intro h
    have hset : setTargetFileExts arg = .ok arg.normalize := by
      cases arg <;> simp_all [setTargetFileExts, ExtsArg.normalize, ExtsArg.isFalsy]
    exact ⟨hset, by simp [reconfigure, hset]⟩
  · intro h
    have hset : setTargetFileExts arg = .error .noTargetFileExtensions := by
      simp [setTargetFileExts, h]
    exact ⟨hset, by simp [reconfigure, hset]⟩

/-- C9 witness: reconfiguring a factory storing `[.yml]` to the empty list
raises and keeps `[.yml]`; reconfiguring it to `[.ini]` stores `[.ini]`. -/
theorem reconfigure_atomic_witness :
    (setTargetFileExts (ExtsArg.list []) = .error .noTargetFileExtensions ∧
      reconfigure [".yml"] (ExtsArg.list []) = ([".yml"], some .noTargetFileExtensions)) ∧
    (setTargetFileExts (ExtsArg.list [".ini"]) = .ok [".ini"] ∧
      reconfigure [".yml"] (ExtsArg.list [".ini"]) = ([".ini"], none)) :=
  ⟨(reconfigure_atomic [".yml"] (ExtsArg.list [])).2.2 rfl,
   (reconfigure_atomic [".yml"] (ExtsArg.list [".ini"])).2.1 rfl⟩

/-- C10: constructing a LoaderFactory with the bare string `.yml` stores
the one-element list `[.yml]`. -/
theorem construct_with_bare_string_wraps :
    constructFactory (.str ".yml") = .ok [".yml"] := rfl

end Loaders
